import Mathlib

/-!
Shallow embedding of the Ytranscriptor batch pipeline (src/main.py).

External services (YouTube Data API, yt-dlp, the Groq transcription and
chat endpoints) are modelled as an oracle structure `Env` holding the
response each call would produce; the filesystem is an association list
from path to contents.  Every function of the source file is translated
to a Lean function that additionally returns the list of external calls
it performs, so that claims about which calls happen can be stated and
decided.
-/

namespace Ytranscriptor

/-- Decimal digit character, used to model the f-string rendering of an
index in path names. -/
def digitChar (n : Nat) : Char := Char.ofNat (48 + n)

/-- Fuel-driven decimal rendering of a natural number (structural
recursion so that the kernel can evaluate it). -/
def toDecimalAux : Nat → Nat → List Char
  | 0, _ => []
  | fuel + 1, n =>
    if n < 10 then [digitChar (n % 10)]
    else toDecimalAux fuel (n / 10) ++ [digitChar (n % 10)]

/-- Decimal rendering of a natural number, the model of f"..." applied
to the 1-based video index. -/
def toDecimal (n : Nat) : List Char := toDecimalAux (n + 1) n

/-- The canonical audio path audio_files/(index).mp3 built by
download_audio. -/
def audioFilePath (index : Nat) : String :=
  "audio_files/" ++ String.mk (toDecimal index) ++ ".mp3"

/-- The canonical terminal path transcriptions/(index).md built by
process_video. -/
def transcriptionFilePath (index : Nat) : String :=
  "transcriptions/" ++ String.mk (toDecimal index) ++ ".md"

/-- Model of pathlib suffix: the rest of the final path component after
its last dot, provided the dot is neither the first nor the last
character of that component.  Works on the reversed character list of
the final component. -/
def pySuffixRev (rname : List Char) : List Char :=
  match rname.dropWhile (fun c => c != '.') with
  | [] => []
  | _ :: tl =>
    if (rname.takeWhile (fun c => c != '.')).isEmpty || tl.isEmpty then []
    else rname.takeWhile (fun c => c != '.') ++ ['.']

/-- Model of Path(p).suffix from pathlib. -/
def pySuffix (p : String) : String :=
  String.mk ((pySuffixRev ((p.toList.reverse).takeWhile (fun c => c != '/'))).reverse)

/-- Model of str.lower applied characterwise. -/
def lowerStr (s : String) : String := String.mk (s.toList.map Char.toLower)

/-- The filesystem, an association list from path to file contents; the
most recent write for a path is the visible one. -/
structure FS where
  files : List (String × String)
deriving DecidableEq

/-- Model of os.path.exists. -/
def FS.pathExists (fs : FS) (p : String) : Bool := (fs.files.lookup p).isSome

/-- Model of writing a file (open with mode w). -/
def FS.write (fs : FS) (p c : String) : FS := ⟨(p, c) :: fs.files⟩

/-- One external call performed by the pipeline. -/
inductive Event where
  | catalogList
  | detailsFetch (videoId : String)
  | captionsList (videoId : String)
  | audioDownload (videoId : String)
  | transcribeCall (path : String)
  | formatCall (prompt : String)
  | fileWrite (path : String)
deriving DecidableEq

/-- The snippet part of a video resource. -/
structure Snippet where
  title : String
deriving DecidableEq

/-- A video resource returned by videos().list. -/
structure VideoDetails where
  snippet : Snippet
deriving DecidableEq

/-- A caption track returned by captions().list. -/
structure CaptionTrack where
  trackKind : String
deriving DecidableEq

/-- Errors raised by transcribe_audio: the ValueError for a bad
extension, and the generic exception carrying the raw response body for
a non-200 response. -/
inductive TranscribeError where
  | unsupportedFormat (path : String)
  | transcriptionFailed (body : String)
deriving DecidableEq

/-- An exception that escapes process_video uncaught: an HttpError from
the details fetch or the caption listing, or a failure of the LLM
formatting call, none of which the source wraps in try/except. -/
inductive Uncaught where
  | detailsError (msg : String)
  | captionsError (msg : String)
  | formatError (msg : String)
deriving DecidableEq

/-- Oracle for every external collaborator: what each remote call would
return if performed. -/
structure Env where
  catalogResp : Except String (List String)
  detailsResp : String → Except String (Option VideoDetails)
  captionsResp : String → Except String (List CaptionTrack)
  downloadOk : String → Bool
  audioBytes : String → String
  transcribeStatus : String → Nat
  transcribeBody : String → String
  transcribeText : String → String
  formatResp : String → Except String String
  writeOk : String → Bool

/-- Model of get_video_ids: one paginated catalog listing, which either
yields the whole ordered id list or raises an HttpError. -/
def get_video_ids (env : Env) : List Event × Except String (List String) :=
  ([Event.catalogList], env.catalogResp)

/-- Model of get_video_details: one videos().list call; None models an
empty items list. -/
def get_video_details (env : Env) (video_id : String) :
    List Event × Except String (Option VideoDetails) :=
  ([Event.detailsFetch video_id], env.detailsResp video_id)

/-- The loop body of check_for_transcription: skip ASR tracks, return
true on the first track of any other kind. -/
def check_for_transcription_tracks : List CaptionTrack → Bool
  | [] => false
  | t :: rest =>
    if t.trackKind = "ASR" then check_for_transcription_tracks rest
    else true

/-- Model of check_for_transcription: one captions().list call followed
by the scan of the returned tracks. -/
def check_for_transcription (env : Env) (video_id : String) :
    List Event × Except String Bool :=
  ([Event.captionsList video_id],
    match env.captionsResp video_id with
    | .error e => .error e
    | .ok items => .ok (check_for_transcription_tracks items))

/-- Model of download_audio: return the canonical path at once when the
file exists, otherwise run yt-dlp, which either writes the file and
succeeds or fails and yields None. -/
def download_audio (env : Env) (fs : FS) (video_id : String) (index : Nat) :
    List Event × FS × Option String :=
  let audio_file_path := audioFilePath index
  if fs.pathExists audio_file_path then
    ([], fs, some audio_file_path)
  else if env.downloadOk video_id then
    ([Event.audioDownload video_id],
      fs.write audio_file_path (env.audioBytes video_id), some audio_file_path)
  else
    ([Event.audioDownload video_id], fs, none)

/-- The fixed allow-list of audio extensions checked by
transcribe_audio. -/
def audio_file_types : List String := [".mp3", ".wav", ".m4a", ".flac"]

/-- Model of transcribe_audio: validate the lowered suffix against the
allow-list before any network call; on an allowed suffix perform the
POST, returning the parsed text on HTTP 200 and the failure carrying the
raw body otherwise. -/
def transcribe_audio (env : Env) (audio_file_path : String) :
    List Event × Except TranscribeError String :=
  if lowerStr (pySuffix audio_file_path) ∈ audio_file_types then
    ([Event.transcribeCall audio_file_path],
      if env.transcribeStatus audio_file_path = 200 then
        .ok (env.transcribeText audio_file_path)
      else
        .error (.transcriptionFailed (env.transcribeBody audio_file_path)))
  else
    ([], .error (.unsupportedFormat audio_file_path))

/-- The prompt built by format_transcription around the raw
transcript. -/
def format_prompt (transcription : String) : String :=
  "Edit the following transcription into topics using markdown. Try to recognize when something is a song lyric instead of conversational text.:\n\n"
    ++ transcription

/-- Model of query_groq: one chat-completion call that either returns
the completion or raises. -/
def query_groq (env : Env) (prompt : String) :
    List Event × Except String String :=
  ([Event.formatCall prompt], env.formatResp prompt)

/-- Model of format_transcription. -/
def format_transcription (env : Env) (transcription : String) :
    List Event × Except String String :=
  query_groq env (format_prompt transcription)

/-- Model of process_video, in source order: details fetch first, then
the terminal-file existence check, then the caption gate, then audio
download, transcription (wrapped in try/except), formatting (not
wrapped) and the final guarded write.  Returns the external calls
performed, the resulting filesystem, and either unit or the uncaught
exception that escaped. -/
def process_video (env : Env) (fs : FS) (video_id : String) (index : Nat) :
    List Event × FS × Except Uncaught Unit :=
  match (get_video_details env video_id).2 with
  | .error e => ([Event.detailsFetch video_id], fs, .error (.detailsError e))
  | .ok none => ([Event.detailsFetch video_id], fs, .ok ())
  | .ok (some _details) =>
    let file_path := transcriptionFilePath index
    if fs.pathExists file_path then
      ([Event.detailsFetch video_id], fs, .ok ())
    else
      match (check_for_transcription env video_id).2 with
      | .error e =>
        ([Event.detailsFetch video_id, Event.captionsList video_id], fs,
          .error (.captionsError e))
      | .ok hasCaption =>
        if hasCaption then
          ([Event.detailsFetch video_id, Event.captionsList video_id], fs, .ok ())
        else
          match download_audio env fs video_id index with
          | (ev1, fs1, none) =>
            ([Event.detailsFetch video_id, Event.captionsList video_id] ++ ev1,
              fs1, .ok ())
          | (ev1, fs1, some audio_file_path) =>
            match transcribe_audio env audio_file_path with
            | (ev2, .error _) =>
              ([Event.detailsFetch video_id, Event.captionsList video_id]
                  ++ ev1 ++ ev2, fs1, .ok ())
            | (ev2, .ok transcription) =>
              match format_transcription env transcription with
              | (ev3, .error e) =>
                ([Event.detailsFetch video_id, Event.captionsList video_id]
                    ++ ev1 ++ ev2 ++ ev3, fs1, .error (.formatError e))
              | (ev3, .ok formatted) =>
                let evs := [Event.detailsFetch video_id, Event.captionsList video_id]
                    ++ ev1 ++ ev2 ++ ev3 ++ [Event.fileWrite file_path]
                if env.writeOk file_path then
                  (evs, fs1.write file_path formatted, .ok ())
                else
                  (evs, fs1, .ok ())

/-- Model of enumerate(xs, start=s) from the orchestrator loop. -/
def pyEnumerate {α : Type} : Nat → List α → List (Nat × α)
  | _, [] => []
  | s, x :: xs => (s, x) :: pyEnumerate (s + 1) xs

/-- The orchestrator loop over the enumerated catalog: each video is
processed in turn; an uncaught exception from process_video aborts the
rest of the loop, every caught outcome lets the loop continue. -/
def process_videos (env : Env) : FS → List (Nat × String) → List Event × FS × Except Uncaught Unit
  | fs, [] => ([], fs, .ok ())
  | fs, (index, video_id) :: rest =>
    match process_video env fs video_id index with
    | (evs, fs1, .error e) => (evs, fs1, .error e)
    | (evs, fs1, .ok ()) =>
      match process_videos env fs1 rest with
      | (evs2, fs2, r) => (evs ++ evs2, fs2, r)

/-- Overall outcome of a run of main. -/
inductive RunOutcome where
  | fatalCatalog (msg : String)
  | aborted (e : Uncaught)
  | completed
deriving DecidableEq

/-- Model of main: a catalog-listing failure exits fatally; otherwise
the enumerated videos are processed sequentially. -/
def main (env : Env) (fs : FS) : List Event × FS × RunOutcome :=
  match (get_video_ids env).2 with
  | .error e => ([Event.catalogList], fs, .fatalCatalog e)
  | .ok video_ids =>
    match process_videos env fs (pyEnumerate 1 video_ids) with
    | (evs, fs1, .error e) => (Event.catalogList :: evs, fs1, .aborted e)
    | (evs, fs1, .ok ()) => (Event.catalogList :: evs, fs1, .completed)

/-- The environment variables the script reads at import time. -/
structure EnvVars where
  groq_api_key : Option String
  yt_api_key : Option String
  channel_id : Option String
deriving DecidableEq

/-- Python falsiness of an optional environment string: missing or
empty. -/
def falsyStr : Option String → Bool
  | none => true
  | some s => s.isEmpty

/-- Result of the module-level startup checks: either sys.exit with a
message and exit code, or proceeding into main with the read values. -/
inductive StartupResult where
  | exits (msg : String) (code : Nat)
  | proceed (groqKey ytKey : String) (channelId : Option String)
deriving DecidableEq

/-- Model of the module-level credential checks of the source: the two
API keys are tested for falsiness in order and cause sys.exit(1) with a
message; the channel id is merely read. -/
def startup (e : EnvVars) : StartupResult :=
  if falsyStr e.groq_api_key then .exits "Error: GROQ_API_KEY is not set." 1
  else if falsyStr e.yt_api_key then .exits "Error: YOUTUBE_API_KEY is not set." 1
  else .proceed (e.groq_api_key.getD "") (e.yt_api_key.getD "") e.channel_id

/-! ## Helper lemmas about paths and enumeration -/

lemma toDecimal_reverse (n : Nat) :
    ∃ t, (toDecimal n).reverse = digitChar (n % 10) :: t := by
  by_cases h : n < 10
  · exact ⟨[], by simp [toDecimal, toDecimalAux, h]⟩
  · exact ⟨(toDecimalAux n (n / 10)).reverse, by simp [toDecimal, toDecimalAux, h]⟩

lemma digitChar_ne_slash : ∀ m < 10, (digitChar m != '/') = true := by decide

lemma takeWhile_ne_slash_cons (a : Char) (l : List Char) (h : (a != '/') = true) :
    List.takeWhile (fun c => c != '/') (a :: l)
      = a :: List.takeWhile (fun c => c != '/') l := by
  simp [List.takeWhile_cons, h]

/-- The canonical audio path produced by download_audio always carries
the suffix .mp3 in the sense of pathlib. -/
lemma pySuffix_audioFilePath (i : Nat) : pySuffix (audioFilePath i) = ".mp3" := by
  obtain ⟨t, ht⟩ := toDecimal_reverse i
  have hd : (digitChar (i % 10) != '/') = true :=
    digitChar_ne_slash _ (Nat.mod_lt _ (by norm_num))
  have hlist : (audioFilePath i).toList
      = "audio_files/".toList ++ (toDecimal i ++ ".mp3".toList) := rfl
  have hm : ".mp3".toList.reverse = ['3', 'p', 'm', '.'] := by decide
  unfold pySuffix
  rw [hlist, List.reverse_append, List.reverse_append, ht, hm]
  simp only [List.cons_append, List.nil_append]
  rw [takeWhile_ne_slash_cons _ _ (by decide), takeWhile_ne_slash_cons _ _ (by decide),
    takeWhile_ne_slash_cons _ _ (by decide), takeWhile_ne_slash_cons _ _ (by decide),
    takeWhile_ne_slash_cons _ _ hd]
  simp +decide [pySuffixRev, List.takeWhile_cons, List.dropWhile_cons]

lemma pyEnumerate_map_fst {α : Type} (s : Nat) (xs : List α) :
    (pyEnumerate s xs).map Prod.fst = List.range' s xs.length := by
  induction xs generalizing s with
  | nil => simp [pyEnumerate]
  | cons x xs ih => simp [pyEnumerate, List.range'_succ, ih]

lemma pyEnumerate_map_snd {α : Type} (s : Nat) (xs : List α) :
    (pyEnumerate s xs).map Prod.snd = xs := by
  induction xs generalizing s with
  | nil => simp [pyEnumerate]
  | cons x xs ih => simp [pyEnumerate, ih]

/-! ## Concrete environments used by witnesses and counterexamples -/

/-- The empty filesystem. -/
def fs0 : FS := ⟨[]⟩

/-- An all-success oracle: every remote call succeeds. -/
def envBase : Env where
  catalogResp := .ok ["a", "b"]
  detailsResp := fun _ => .ok (some { snippet := { title := "T" } })
  captionsResp := fun _ => .ok []
  downloadOk := fun _ => true
  audioBytes := fun _ => "AUDIO"
  transcribeStatus := fun _ => 200
  transcribeBody := fun _ => "BODY"
  transcribeText := fun _ => "TEXT"
  formatResp := fun _ => .ok "MD"
  writeOk := fun _ => true

/-! ## Claims -/

/-- C3: for a catalog of N entries the orchestrator loop receives the
indices 1..N exactly, in catalog order, paired with the catalog entries
in their original order. -/
theorem C3_index_contiguity (video_ids : List String) :
    (pyEnumerate 1 video_ids).map Prod.fst = List.range' 1 video_ids.length
      ∧ (pyEnumerate 1 video_ids).map Prod.snd = video_ids :=
  ⟨pyEnumerate_map_fst 1 video_ids, pyEnumerate_map_snd 1 video_ids⟩

/-- C5: when the canonical audio file for the index already exists,
download_audio returns that path with no external call and an unchanged
filesystem, whatever the video id. -/
theorem C5_audio_cache (env : Env) (fs : FS) (video_id : String) (index : Nat)
    (h : fs.pathExists (audioFilePath index) = true) :
    download_audio env fs video_id index = ([], fs, some (audioFilePath index)) := by
  simp [download_audio, h]

theorem C5_audio_cache_witness :
    FS.pathExists ⟨[("audio_files/7.mp3", "X")]⟩ (audioFilePath 7) = true
      ∧ download_audio envBase ⟨[("audio_files/7.mp3", "X")]⟩ "vid" 7
          = ([], ⟨[("audio_files/7.mp3", "X")]⟩, some (audioFilePath 7)) :=
  ⟨by decide, C5_audio_cache envBase ⟨[("audio_files/7.mp3", "X")]⟩ "vid" 7 (by decide)⟩

/-- C1 counterexample: a video whose terminal file exists still incurs
an external call on a re-run, because the metadata fetch precedes the
output-existence check. -/
theorem C1_counterexample :
    FS.pathExists ⟨[("transcriptions/1.md", "OLD")]⟩ (transcriptionFilePath 1) = true
      ∧ (process_video envBase ⟨[("transcriptions/1.md", "OLD")]⟩ "v" 1).1 ≠ [] :=
  ⟨by decide, by decide⟩

/-- C1 (amended): when the terminal file exists, process_video performs
exactly one external call, the metadata fetch, and leaves the
filesystem (hence the file contents) unchanged; no caption listing,
audio download, transcription or formatting occurs. -/
theorem C1_terminal_skip (env : Env) (fs : FS) (video_id : String) (index : Nat)
    (h : fs.pathExists (transcriptionFilePath index) = true) :
    (process_video env fs video_id index).1 = [Event.detailsFetch video_id]
      ∧ (process_video env fs video_id index).2.1 = fs := by
  cases hd : (get_video_details env video_id).2 with
  | error e => simp [process_video, hd]
  | ok od =>
    cases od with
    | none => simp [process_video, hd]
    | some d => simp [process_video, hd, h]

theorem C1_terminal_skip_witness :
    FS.pathExists ⟨[("transcriptions/2.md", "KEEP")]⟩ (transcriptionFilePath 2) = true
      ∧ ((process_video envBase ⟨[("transcriptions/2.md", "KEEP")]⟩ "w" 2).1
            = [Event.detailsFetch "w"]
        ∧ (process_video envBase ⟨[("transcriptions/2.md", "KEEP")]⟩ "w" 2).2.1
            = ⟨[("transcriptions/2.md", "KEEP")]⟩) :=
  ⟨by decide, C1_terminal_skip envBase ⟨[("transcriptions/2.md", "KEEP")]⟩ "w" 2 (by decide)⟩

/-- C6 counterexample: with both API keys present but the channel
identifier absent from the environment, startup proceeds instead of
terminating with an error. -/
theorem C6_counterexample :
    startup { groq_api_key := some "g", yt_api_key := some "y", channel_id := none }
      = .proceed "g" "y" none := by decide

/-- C6 (amended): startup exits with code 1 exactly when one of the two
API keys is missing or empty, with the corresponding descriptive
message; the channel identifier is read but never checked. -/
theorem C6_startup_check (e : EnvVars) :
    ((∃ msg, startup e = .exits msg 1)
        ↔ (falsyStr e.groq_api_key = true ∨ falsyStr e.yt_api_key = true))
      ∧ (falsyStr e.groq_api_key = true →
          startup e = .exits "Error: GROQ_API_KEY is not set." 1)
      ∧ (falsyStr e.groq_api_key = false → falsyStr e.yt_api_key = true →
          startup e = .exits "Error: YOUTUBE_API_KEY is not set." 1) := by
  by_cases h1 : falsyStr e.groq_api_key = true
  · simp [startup, h1]
  · by_cases h2 : falsyStr e.yt_api_key = true
    · simp [startup, h1, h2]
    · simp [startup, h1, h2]

theorem C6_startup_check_witness :
    falsyStr (EnvVars.groq_api_key ⟨none, some "y", some "c"⟩) = true
      ∧ startup ⟨none, some "y", some "c"⟩ = .exits "Error: GROQ_API_KEY is not set." 1 :=
  ⟨by decide, (C6_startup_check ⟨none, some "y", some "c"⟩).2.1 (by decide)⟩

/-- External calls that the pipeline considers expensive per-video
work: audio acquisition, transcription and formatting. -/
def isExpensiveCall : Event → Bool
  | .audioDownload _ => true
  | .transcribeCall _ => true
  | .formatCall _ => true
  | _ => false

/-- An oracle whose caption listing reports one manually created
track. -/
def envManual : Env :=
  { envBase with captionsResp := fun _ => .ok [{ trackKind := "standard" }] }

/-- The scan of caption tracks succeeds exactly when some track kind
differs from ASR. -/
lemma check_tracks_iff (tracks : List CaptionTrack) :
    check_for_transcription_tracks tracks = true ↔ ∃ t ∈ tracks, t.trackKind ≠ "ASR" := by
  induction tracks with
  | nil => simp [check_for_transcription_tracks]
  | cons t rest ih =>
    by_cases ht : t.trackKind = "ASR"
    · simp [check_for_transcription_tracks, ht, ih]
    · simp [check_for_transcription_tracks, ht]

/-- C4: the caption check returns true exactly when some listed track
has a kind other than ASR, and whenever it returns true process_video
performs no audio download, no transcription call and no formatting
call. -/
theorem C4_manual_caption_gate (env : Env) (fs : FS) (video_id : String) (index : Nat)
    (tracks : List CaptionTrack) (h : env.captionsResp video_id = .ok tracks) :
    (check_for_transcription_tracks tracks = true
        ↔ ∃ t ∈ tracks, t.trackKind ≠ "ASR")
      ∧ (check_for_transcription_tracks tracks = true →
          ∀ e ∈ (process_video env fs video_id index).1, isExpensiveCall e = false) := by
  refine ⟨check_tracks_iff tracks, ?_⟩
  intro hman
  cases hd : (get_video_details env video_id).2 with
  | error e => simp [process_video, hd, isExpensiveCall]
  | ok od =>
    cases od with
    | none => simp [process_video, hd, isExpensiveCall]
    | some d =>
      by_cases hf : fs.pathExists (transcriptionFilePath index) = true
      · simp [process_video, hd, hf, isExpensiveCall]
      · simp [process_video, hd, hf, check_for_transcription, h, hman, isExpensiveCall]

theorem C4_manual_caption_gate_witness :
    (check_for_transcription_tracks [{ trackKind := "standard" }] = true
        ↔ ∃ t ∈ [CaptionTrack.mk "standard"], t.trackKind ≠ "ASR")
      ∧ (check_for_transcription_tracks [{ trackKind := "standard" }] = true →
          ∀ e ∈ (process_video envManual fs0 "v" 1).1, isExpensiveCall e = false) :=
  C4_manual_caption_gate envManual fs0 "v" 1 [{ trackKind := "standard" }] rfl

/-- C8: a path whose lowered suffix is outside the allow-list makes
transcribe_audio fail with the unsupported-format error and no network
call; a path with an allowed suffix passes the check and reaches the
remote call. -/
theorem C8_format_validation (env : Env) (p : String) :
    (lowerStr (pySuffix p) ∉ audio_file_types →
        transcribe_audio env p = ([], .error (.unsupportedFormat p)))
      ∧ (lowerStr (pySuffix p) ∈ audio_file_types →
        (transcribe_audio env p).1 = [Event.transcribeCall p]) := by
  constructor
  · intro h; simp [transcribe_audio, h]
  · intro h; simp [transcribe_audio, h]

theorem C8_format_validation_witness :
    lowerStr (pySuffix "audio_files/1.txt") ∉ audio_file_types
      ∧ transcribe_audio envBase "audio_files/1.txt"
          = ([], .error (.unsupportedFormat "audio_files/1.txt")) :=
  ⟨by decide, (C8_format_validation envBase "audio_files/1.txt").1 (by decide)⟩

/-- C10: every path download_audio can return carries the suffix .mp3,
whose lowering is in the allow-list, so the transcriber reaches the
remote call and its unsupported-format branch is unreachable on
orchestrator-produced artifacts. -/
theorem C10_unsupported_unreachable (env : Env) (fs : FS) (video_id : String)
    (index : Nat) (p : String)
    (h : (download_audio env fs video_id index).2.2 = some p) :
    pySuffix p = ".mp3"
      ∧ lowerStr (pySuffix p) ∈ audio_file_types
      ∧ (transcribe_audio env p).1 = [Event.transcribeCall p]
      ∧ ∀ q, (transcribe_audio env p).2 ≠ .error (.unsupportedFormat q) := by
  have hp : p = audioFilePath index := by
    simp only [download_audio] at h
    split at h
    · simp at h; exact h.symm
    · split at h
      · simp at h; exact h.symm
      · simp at h
  subst hp
  have hmem : lowerStr (pySuffix (audioFilePath index)) ∈ audio_file_types := by
    rw [pySuffix_audioFilePath]; decide
  refine ⟨pySuffix_audioFilePath index, hmem, by simp [transcribe_audio, hmem], ?_⟩
  intro q hq
  simp only [transcribe_audio, if_pos hmem] at hq
  split at hq <;> simp at hq

theorem C10_unsupported_unreachable_witness :
    (download_audio envBase fs0 "v" 3).2.2 = some (audioFilePath 3)
      ∧ (pySuffix (audioFilePath 3) = ".mp3"
        ∧ lowerStr (pySuffix (audioFilePath 3)) ∈ audio_file_types
        ∧ (transcribe_audio envBase (audioFilePath 3)).1
            = [Event.transcribeCall (audioFilePath 3)]
        ∧ ∀ q, (transcribe_audio envBase (audioFilePath 3)).2
            ≠ .error (.unsupportedFormat q)) :=
  ⟨by decide, C10_unsupported_unreachable envBase fs0 "v" 3 (audioFilePath 3) (by decide)⟩

/-- The lowered canonical suffix is in the allow-list. -/
lemma mp3_mem : lowerStr ".mp3" ∈ audio_file_types := by decide

/-- An oracle whose formatting call raises. -/
def envFmtFail : Env := { envBase with formatResp := fun _ => .error "boom" }

/-- An oracle whose details fetch raises an HttpError. -/
def envDetErr : Env := { envBase with detailsResp := fun _ => .error "remote" }

/-- An oracle whose transcription endpoint answers HTTP 500. -/
def envTFail : Env := { envBase with transcribeStatus := fun _ => 500 }

/-- C2 counterexample: a formatting failure on video 1 aborts the
batch, so video 2 is never attempted. -/
theorem C2_counterexample :
    (process_videos envFmtFail fs0 [(1, "a"), (2, "b")]).2.2
        = .error (.formatError "boom")
      ∧ Event.detailsFetch "b" ∉ (process_videos envFmtFail fs0 [(1, "a"), (2, "b")]).1 :=
  ⟨rfl, by decide⟩

/-- C2 (amended): whenever process_video returns without an uncaught
exception the loop continues with the remaining videos from the
filesystem it left, and the metadata-not-found, audio-download,
transcription and final-write failures all return that way. -/
theorem C2_failure_isolation (env : Env) (fs : FS) (video_id : String) (index : Nat)
    (rest : List (Nat × String)) :
    ((process_video env fs video_id index).2.2 = .ok () →
        process_videos env fs ((index, video_id) :: rest)
          = ((process_video env fs video_id index).1
                ++ (process_videos env (process_video env fs video_id index).2.1 rest).1,
              (process_videos env (process_video env fs video_id index).2.1 rest).2.1,
              (process_videos env (process_video env fs video_id index).2.1 rest).2.2))
      ∧ (env.detailsResp video_id = .ok none →
          (process_video env fs video_id index).2.2 = .ok ())
      ∧ (∀ d tracks, env.detailsResp video_id = .ok (some d) →
          fs.pathExists (transcriptionFilePath index) = false →
          env.captionsResp video_id = .ok tracks →
          check_for_transcription_tracks tracks = false →
          fs.pathExists (audioFilePath index) = false →
          env.downloadOk video_id = false →
          (process_video env fs video_id index).2.2 = .ok ())
      ∧ (∀ d tracks md, env.detailsResp video_id = .ok (some d) →
          fs.pathExists (transcriptionFilePath index) = false →
          env.captionsResp video_id = .ok tracks →
          check_for_transcription_tracks tracks = false →
          fs.pathExists (audioFilePath index) = true →
          env.transcribeStatus (audioFilePath index) = 200 →
          env.formatResp (format_prompt (env.transcribeText (audioFilePath index))) = .ok md →
          env.writeOk (transcriptionFilePath index) = false →
          (process_video env fs video_id index).2.2 = .ok ()) := by
  refine ⟨?_, ?_, ?_, ?_⟩
  · intro h
    rcases hpv : process_video env fs video_id index with ⟨evs, fs1, out⟩
    rw [hpv] at h
    simp only at h
    subst h
    rcases hrest : process_videos env fs1 rest with ⟨evs2, fs2, r⟩
    simp [process_videos, hpv, hrest]
  · intro h
    simp [process_video, get_video_details, h]
  · intro d tracks h1 h2 h3 h4 h5 h6
    simp [process_video, get_video_details, h1, h2, check_for_transcription, h3, h4,
      download_audio, h5, h6]
  · intro d tracks md h1 h2 h3 h4 h5 h6 h7 h8
    simp [process_video, get_video_details, h1, h2, check_for_transcription, h3, h4,
      download_audio, h5, transcribe_audio, pySuffix_audioFilePath, mp3_mem, h6,
      format_transcription, query_groq, h7, h8]

theorem C2_failure_isolation_witness :
    (process_video envTFail fs0 "a" 1).2.2 = .ok ()
      ∧ process_videos envTFail fs0 ((1, "a") :: [(2, "b")])
          = ((process_video envTFail fs0 "a" 1).1
                ++ (process_videos envTFail (process_video envTFail fs0 "a" 1).2.1 [(2, "b")]).1,
              (process_videos envTFail (process_video envTFail fs0 "a" 1).2.1 [(2, "b")]).2.1,
              (process_videos envTFail (process_video envTFail fs0 "a" 1).2.1 [(2, "b")]).2.2) :=
  ⟨rfl, (C2_failure_isolation envTFail fs0 "a" 1 [(2, "b")]).1 rfl⟩

/-- C7 counterexample: an HttpError raised by the details fetch of
video 1 escapes the loop and aborts the batch, so video 2 is never
attempted. -/
theorem C7_counterexample :
    (process_videos envDetErr fs0 [(1, "a"), (2, "b")]).2.2
        = .error (.detailsError "remote")
      ∧ Event.detailsFetch "b" ∉ (process_videos envDetErr fs0 [(1, "a"), (2, "b")]).1 :=
  ⟨rfl, by decide⟩

/-- C7 (amended): a remote service error raised during the details
fetch or the caption listing propagates uncaught and aborts the batch;
only the details-not-found case is handled non-fatally, with the loop
continuing on the next video. -/
theorem C7_remote_error_fatal (env : Env) (fs : FS) (video_id : String) (index : Nat)
    (rest : List (Nat × String)) :
    (∀ msg, env.detailsResp video_id = .error msg →
        process_videos env fs ((index, video_id) :: rest)
          = ([Event.detailsFetch video_id], fs, .error (.detailsError msg)))
      ∧ (env.detailsResp video_id = .ok none →
          process_videos env fs ((index, video_id) :: rest)
            = (Event.detailsFetch video_id :: (process_videos env fs rest).1,
                (process_videos env fs rest).2.1,
                (process_videos env fs rest).2.2))
      ∧ (∀ d msg, env.detailsResp video_id = .ok (some d) →
          fs.pathExists (transcriptionFilePath index) = false →
          env.captionsResp video_id = .error msg →
          process_videos env fs ((index, video_id) :: rest)
            = ([Event.detailsFetch video_id, Event.captionsList video_id], fs,
                .error (.captionsError msg))) := by
  refine ⟨?_, ?_, ?_⟩
  · intro msg h
    simp [process_videos, process_video, get_video_details, h]
  · intro h
    rcases hrest : process_videos env fs rest with ⟨evs2, fs2, r⟩
    simp [process_videos, process_video, get_video_details, h, hrest]
  · intro d msg h1 h2 h3
    simp [process_videos, process_video, get_video_details, h1, h2,
      check_for_transcription, h3]

theorem C7_remote_error_fatal_witness :
    envDetErr.detailsResp "a" = .error "remote"
      ∧ process_videos envDetErr fs0 ((1, "a") :: [(2, "b")])
          = ([Event.detailsFetch "a"], fs0, .error (.detailsError "remote")) :=
  ⟨rfl, (C7_remote_error_fatal envDetErr fs0 "a" 1 [(2, "b")]).1 "remote" rfl⟩

/-- C9: for an allowed suffix the transcriber raises the failure
carrying the raw response body exactly when the service answers a
non-200 status, never raises it for a rejected suffix, and at the batch
level that failure is caught: the loop continues with the next video
and the cached audio artifact is left in place. -/
theorem C9_transcription_failure (env : Env) (p : String) (fs : FS) (video_id : String)
    (index : Nat) (rest : List (Nat × String)) :
    (lowerStr (pySuffix p) ∈ audio_file_types →
        ((transcribe_audio env p).2
            = .error (.transcriptionFailed (env.transcribeBody p))
          ↔ env.transcribeStatus p ≠ 200))
      ∧ (lowerStr (pySuffix p) ∉ audio_file_types →
          ∀ b, (transcribe_audio env p).2 ≠ .error (.transcriptionFailed b))
      ∧ (∀ d tracks, env.detailsResp video_id = .ok (some d) →
          fs.pathExists (transcriptionFilePath index) = false →
          env.captionsResp video_id = .ok tracks →
          check_for_transcription_tracks tracks = false →
          fs.pathExists (audioFilePath index) = true →
          env.transcribeStatus (audioFilePath index) ≠ 200 →
          process_videos env fs ((index, video_id) :: rest)
            = ([Event.detailsFetch video_id, Event.captionsList video_id,
                  Event.transcribeCall (audioFilePath index)]
                  ++ (process_videos env fs rest).1,
                (process_videos env fs rest).2.1,
                (process_videos env fs rest).2.2)) := by
  refine ⟨?_, ?_, ?_⟩
  · intro hmem
    by_cases hs : env.transcribeStatus p = 200
    · simp [transcribe_audio, hmem, hs]
    · simp [transcribe_audio, hmem, hs]
  · intro hmem b
    simp [transcribe_audio, hmem]
  · intro d tracks h1 h2 h3 h4 h5 h6
    rcases hrest : process_videos env fs rest with ⟨evs2, fs2, r⟩
    simp [process_videos, process_video, get_video_details, h1, h2,
      check_for_transcription, h3, h4, download_audio, h5, transcribe_audio,
      pySuffix_audioFilePath, mp3_mem, h6, hrest]

theorem C9_transcription_failure_witness :
    (process_videos envTFail ⟨[("audio_files/1.mp3", "X")]⟩ ((1, "a") :: [])
        = ([Event.detailsFetch "a", Event.captionsList "a",
              Event.transcribeCall (audioFilePath 1)]
              ++ (process_videos envTFail ⟨[("audio_files/1.mp3", "X")]⟩ []).1,
            (process_videos envTFail ⟨[("audio_files/1.mp3", "X")]⟩ []).2.1,
            (process_videos envTFail ⟨[("audio_files/1.mp3", "X")]⟩ []).2.2)) :=
  (C9_transcription_failure envTFail (audioFilePath 1) ⟨[("audio_files/1.mp3", "X")]⟩
      "a" 1 []).2.2 { snippet := { title := "T" } } [] rfl (by decide) rfl rfl
    (by decide) (by decide)

end Ytranscriptor
